import Mathlib

/-!
Verification development for the grocery-shop point-of-sale program
(`grocery_shop.py`).  The in-memory state of `GroceryShopApp` (the pandas
DataFrames `inventory`, `sales_records`, `customers`, the dict
`shopping_lists` and the list `current_cart`) is embedded as lists of
records; the operations `add_to_cart`/`add_item`, `process_sale`,
`save_product` (from `add_product_dialog`), `save_customer` (from
`add_new_customer`) and `add_shopping_list_to_cart` are embedded as pure
state-passing functions.  Monetary values (Python floats holding prices
and totals) are embedded as rationals; quantities and stock counts
(Python ints) as integers.  GUI message boxes are embedded as outcome
values; file persistence (`save_all_data` etc.) does not change in-memory
state and is omitted.
-/

namespace GroceryShop

/-- A row of the `inventory` DataFrame. -/
structure Product where
  productId : String
  productName : String
  category : String
  unitPrice : ℚ
  stockQuantity : ℤ
  minStockLevel : ℤ
  supplier : String
deriving Repr, DecidableEq

/-- A row of the `sales_records` DataFrame (one sale line item). -/
structure SaleRecord where
  saleId : String
  date : String
  time : String
  customerId : String
  customerName : String
  productId : String
  productName : String
  quantity : ℤ
  unitPrice : ℚ
  totalAmount : ℚ
  paymentMethod : String
deriving Repr, DecidableEq

/-- A row of the `customers` DataFrame. -/
structure Customer where
  customerId : String
  customerName : String
  phone : String
  email : String
  address : String
  registrationDate : String
  totalPurchases : ℚ
deriving Repr, DecidableEq

/-- An entry of the `current_cart` list (the dict built in
`add_to_cart.add_item`). -/
structure CartItem where
  product_id : String
  product_name : String
  quantity : ℤ
  unit_price : ℚ
  total : ℚ
deriving Repr, DecidableEq

/-- An entry of a customer's shopping list (the dict built in
`add_to_shopping_list`). -/
structure ShoppingListItem where
  product : String
  quantity : ℤ
  notes : String
deriving Repr, DecidableEq

/-- The in-memory state of `GroceryShopApp`: the three DataFrames, the
shopping-list dict (keys are customer ids) and the transient cart. -/
structure AppState where
  inventory : List Product
  sales_records : List SaleRecord
  customers : List Customer
  shopping_lists : List (String × List ShoppingListItem)
  current_cart : List CartItem
deriving Repr, DecidableEq

/-- Python `f"{n:0wd}"`: the decimal digits of `n` left-padded with zeros
to width `w` (wider numbers are kept whole). -/
def padNum (w : ℕ) (n : ℕ) : String :=
  let s := toString n
  String.mk (List.replicate (w - s.length) '0') ++ s

/-- Python `int(s)` restricted to the non-empty all-digit strings that the
program's own id scheme produces; `none` models the `ValueError` raised on
anything else. -/
def parseNatDigits (s : String) : Option ℕ :=
  if s.data ≠ [] ∧ s.data.all Char.isDigit then
    some (s.data.foldl (fun a c => a * 10 + (c.toNat - 48)) 0)
  else none

/-- `self.inventory[self.inventory['Product_ID'] == pid]` followed by
`.iloc[0]` / `.index[0]`: the first inventory row with the given id. -/
def findByProductId (inv : List Product) (pid : String) : Option Product :=
  inv.find? (fun p => p.productId == pid)

/-- `self.inventory[self.inventory['Product_Name'] == name]` followed by
`.iloc[0]`: the first inventory row with the given product name. -/
def findByProductName (inv : List Product) (name : String) : Option Product :=
  inv.find? (fun p => p.productName == name)

/-- `idx = self.inventory[...=='pid'].index[0];
self.inventory.loc[idx, 'Stock_Quantity'] -= q`: decrement the stock of
the first row matching `pid` (other rows untouched). -/
def decrementStockFirst (inv : List Product) (pid : String) (q : ℤ) :
    List Product :=
  match inv with
  | [] => []
  | p :: rest =>
    if p.productId == pid then
      { p with stockQuantity := p.stockQuantity - q } :: rest
    else
      p :: decrementStockFirst rest pid q

/-- `cust_idx = self.customers[...=='cid'].index; if len(cust_idx) > 0:`
add `amt` to the first matching customer's `Total_Purchases`; a no-op when
no row matches. -/
def updateCustomerTotal (cs : List Customer) (cid : String) (amt : ℚ) :
    List Customer :=
  match cs with
  | [] => []
  | c :: rest =>
    if c.customerId == cid then
      { c with totalPurchases := c.totalPurchases + amt } :: rest
    else
      c :: updateCustomerTotal rest cid amt

/-- The `sale_record` dict built for one cart item inside the
`process_sale` loop. -/
def saleRecordOf (sid d t cid cname pay : String) (it : CartItem) :
    SaleRecord :=
  { saleId := sid, date := d, time := t, customerId := cid,
    customerName := cname, productId := it.product_id,
    productName := it.product_name, quantity := it.quantity,
    unitPrice := it.unit_price, totalAmount := it.total,
    paymentMethod := pay }

/-- Result of the `for item in self.current_cart` loop of `process_sale`:
the mutated `sales_records` and `inventory`, the accumulated
`total_sale_amount`, and whether the loop ran to completion (`ok = false`
models the `IndexError` escaping when a cart item's product id is absent
from the inventory, with the mutations made before that point kept). -/
structure CartLoopResult where
  sales : List SaleRecord
  inv : List Product
  tot : ℚ
  ok : Bool
deriving Repr, DecidableEq

/-- The body of `process_sale`'s loop: for each cart item append a sale
record, then look the product up in the inventory and decrement its stock
(raising — `ok := false` — if it is absent), accumulating the total. -/
def processCartLoop (sid d t cid cname pay : String) :
    List CartItem → List SaleRecord → List Product → ℚ → CartLoopResult
  | [], sales, inv, tot => ⟨sales, inv, tot, true⟩
  | it :: rest, sales, inv, tot =>
    let sales1 := sales ++ [saleRecordOf sid d t cid cname pay it]
    match findByProductId inv it.product_id with
    | none => ⟨sales1, inv, tot, false⟩
    | some _ =>
      processCartLoop sid d t cid cname pay rest sales1
        (decrementStockFirst inv it.product_id it.quantity)
        (tot + it.total)

/-- Observable outcome of `process_sale` (which message box is shown). -/
inductive SaleOutcome where
  | success (saleId : String) (totalAmount : ℚ)
  | emptyCartWarning
  | noCustomerWarning
  | processingError
deriving Repr, DecidableEq

/-- `process_sale`: check the cart is non-empty and a customer is selected
(`customer_info` is the combobox text, embedded as an optional
`(customer_id, customer_name)` pair); generate
`sale_id = f"S{len(self.sales_records) + 1:04d}"`; run the cart loop; if
it completes, credit the first matching customer row (no-op if absent),
clear the cart and report success.  A mid-loop exception leaves the
partially mutated records in place with the cart uncleared. -/
def process_sale (s : AppState) (customer_info : Option (String × String))
    (pay d t : String) : AppState × SaleOutcome :=
  if s.current_cart = [] then (s, .emptyCartWarning)
  else
    match customer_info with
    | none => (s, .noCustomerWarning)
    | some (cid, cname) =>
      let sid := "S" ++ padNum 4 (s.sales_records.length + 1)
      let r := processCartLoop sid d t cid cname pay s.current_cart
        s.sales_records s.inventory 0
      if r.ok then
        ({ s with
            sales_records := r.sales,
            inventory := r.inv,
            customers := updateCustomerTotal s.customers cid r.tot,
            current_cart := [] },
          .success sid r.tot)
      else
        ({ s with sales_records := r.sales, inventory := r.inv },
          .processingError)

/-- Observable outcome of `add_to_cart.add_item`. -/
inductive AddOutcome where
  | added
  | nonPositiveQty
  | notEnoughStock
  | productMissing
deriving Repr, DecidableEq

/-- `add_to_cart` with its inner `add_item`: look the selected product up
by id, reject a non-positive quantity, reject a quantity exceeding the
product's current stock, otherwise append a cart item snapshotting the
product's name and unit price with `total = quantity * unit_price`. -/
def add_to_cart (s : AppState) (product_id : String) (quantity : ℤ) :
    AppState × AddOutcome :=
  match findByProductId s.inventory product_id with
  | none => (s, .productMissing)
  | some product =>
    if quantity ≤ 0 then (s, .nonPositiveQty)
    else if product.stockQuantity < quantity then (s, .notEnoughStock)
    else
      let cart_item : CartItem :=
        { product_id := product_id,
          product_name := product.productName,
          quantity := quantity,
          unit_price := product.unitPrice,
          total := (quantity : ℚ) * product.unitPrice }
      ({ s with current_cart := s.current_cart ++ [cart_item] }, .added)

/-- `clear_cart`: `self.current_cart.clear()`. -/
def clear_cart (s : AppState) : AppState :=
  { s with current_cart := [] }

/-- Observable outcome of `add_product_dialog.save_product`. -/
inductive ProductSaveOutcome where
  | saved (productId : String)
  | allFieldsRequired
  | invalidNumbers
deriving Repr, DecidableEq

/-- The product-id generation at the top of `save_product`:
`P001` on an empty inventory, otherwise
`f"P{int(last_id[1:]) + 1:03d}"` from the last row's id (`none` models the
`ValueError` when the tail of the last id is not numeric). -/
def nextProductId (inv : List Product) : Option String :=
  match inv.getLast? with
  | none => some "P001"
  | some p =>
    (parseNatDigits (p.productId.drop 1)).map
      (fun n => "P" ++ padNum 3 (n + 1))

/-- `add_product_dialog.save_product`.  The numeric fields are passed as
the results of Python's `float(...)`/`int(...)` parses (`none` = parse
raised `ValueError`, answered by the "Please enter valid numbers" box;
the malformed-last-id `ValueError` lands in the same handler).  The
`if not all([name, category, price, supplier])` truthiness test rejects
an empty name, category or supplier and also a price equal to `0.0`
(a falsy float); on success the new row is appended. -/
def save_product (s : AppState) (name category supplier : String)
    (price : Option ℚ) (stock minStock : Option ℤ) :
    AppState × ProductSaveOutcome :=
  match nextProductId s.inventory, price, stock, minStock with
  | some pid, some pr, some st, some ms =>
    if name ≠ "" ∧ category ≠ "" ∧ pr ≠ 0 ∧ supplier ≠ "" then
      ({ s with inventory := s.inventory ++
          [{ productId := pid, productName := name, category := category,
             unitPrice := pr, stockQuantity := st, minStockLevel := ms,
             supplier := supplier }] },
        .saved pid)
    else (s, .allFieldsRequired)
  | _, _, _, _ => (s, .invalidNumbers)

/-- Observable outcome of `add_new_customer.save_customer`. -/
inductive CustomerSaveOutcome where
  | saved (customerId : String)
  | nameRequired
  | invalidLastId
deriving Repr, DecidableEq

/-- The customer-id generation at the top of `save_customer`:
`C001` on an empty table, otherwise
`f"C{int(last_id[1:]) + 1:03d}"` from the last row's id. -/
def nextCustomerId (cs : List Customer) : Option String :=
  match cs.getLast? with
  | none => some "C001"
  | some c =>
    (parseNatDigits (c.customerId.drop 1)).map
      (fun n => "C" ++ padNum 3 (n + 1))

/-- `add_new_customer.save_customer`: generate the next id, reject an
empty customer name, otherwise append a row with `Total_Purchases = 0.0`.
The generic exception handler that catches a malformed last id is the
`invalidLastId` outcome. -/
def save_customer (s : AppState) (name phone email address regDate : String) :
    AppState × CustomerSaveOutcome :=
  match nextCustomerId s.customers with
  | none => (s, .invalidLastId)
  | some cid =>
    if name = "" then (s, .nameRequired)
    else
      ({ s with customers := s.customers ++
          [{ customerId := cid, customerName := name, phone := phone,
             email := email, address := address,
             registrationDate := regDate, totalPurchases := 0 }] },
        .saved cid)

/-- The "Not enough stock" warning box shown inside the
`add_shopping_list_to_cart` loop. -/
structure StockWarning where
  productName : String
  available : ℤ
  requested : ℤ
deriving Repr, DecidableEq

/-- The `for list_item in self.shopping_lists[customer_id]` loop of
`add_shopping_list_to_cart`: resolve each item's product by name; if
found with sufficient stock append a cart item at the current catalog
price, if found with insufficient stock show a stock warning, and if not
found do nothing at all (the item is skipped silently — the source has no
branch for an unmatched product name). -/
def materializeLoop (inv : List Product) :
    List ShoppingListItem → List CartItem × List StockWarning
  | [] => ([], [])
  | it :: rest =>
    let r := materializeLoop inv rest
    match findByProductName inv it.product with
    | none => r
    | some p =>
      if it.quantity ≤ p.stockQuantity then
        ({ product_id := p.productId, product_name := p.productName,
           quantity := it.quantity, unit_price := p.unitPrice,
           total := (it.quantity : ℚ) * p.unitPrice } :: r.1, r.2)
      else
        (r.1, { productName := p.productName, available := p.stockQuantity,
                requested := it.quantity } :: r.2)

/-- Observable outcome of `add_shopping_list_to_cart`. -/
inductive ListToCartOutcome where
  | itemsAdded (count : ℕ)
  | noItemsAdded
  | emptyListWarning
  | noCustomerWarning
deriving Repr, DecidableEq

/-- `customer_id in self.shopping_lists` / `self.shopping_lists[cid]`:
lookup in the shopping-list dict. -/
def lookupList (ls : List (String × List ShoppingListItem)) (cid : String) :
    Option (List ShoppingListItem) :=
  (ls.find? (fun kv => kv.1 == cid)).map Prod.snd

/-- `add_shopping_list_to_cart`: require a selected customer and a
non-empty stored list, then run the materialization loop, extending the
current cart with the produced lines; the returned warnings are the stock
warning boxes shown, and the outcome reports `items_added`. -/
def add_shopping_list_to_cart (s : AppState)
    (customer_info : Option (String × String)) :
    AppState × List StockWarning × ListToCartOutcome :=
  match customer_info with
  | none => (s, [], .noCustomerWarning)
  | some (cid, _) =>
    match lookupList s.shopping_lists cid with
    | none => (s, [], .emptyListWarning)
    | some items =>
      if items = [] then (s, [], .emptyListWarning)
      else
        let r := materializeLoop s.inventory items
        ({ s with current_cart := s.current_cart ++ r.1 }, r.2,
          if 0 < r.1.length then .itemsAdded r.1.length else .noItemsAdded)

/-- The number of distinct sale ids appearing in the ledger — what the
spec says the next sale id is derived from. -/
def distinctSaleIds (l : List SaleRecord) : ℕ :=
  (l.map (fun r => r.saleId)).dedup.length

/-- Combined quantity the cart requests for a given product id (summed
over all cart lines with that id). -/
def cartQty : List CartItem → String → ℤ
  | [], _ => 0
  | it :: rest, pid =>
    (if it.product_id = pid then it.quantity else 0) + cartQty rest pid

/-- The spec's worked scenario: product `P001` priced 80.00 with stock
50; customer `C001` with total purchases 0.00; empty ledger and cart. -/
def scenarioState : AppState :=
  { inventory := [⟨"P001", "Rice (1kg)", "Grains", 80, 50, 10, "Supplier A"⟩],
    sales_records := [],
    customers := [⟨"C001", "Asha", "99999", "a@example.com", "12 Main St",
      "2024-01-01", 0⟩],
    shopping_lists := [],
    current_cart := [] }

/-- The scenario state after adding `(P001, qty 3)` to the cart through
the add-to-cart dialog. -/
def scenarioCartState : AppState := (add_to_cart scenarioState "P001" 3).1

/-- A product with stock 5 and an empty cart: the starting point for
adding two cart lines of quantity 3 each for the same product. -/
def lowStockState : AppState :=
  { inventory := [⟨"P002", "Bread", "Bakery", 25, 5, 2, "Supplier E"⟩],
    sales_records := [],
    customers := [⟨"C001", "Asha", "99999", "a@example.com", "12 Main St",
      "2024-01-01", 0⟩],
    shopping_lists := [],
    current_cart := [] }

/-- `lowStockState` after two successful add-to-cart dialogs of quantity
3 each (each is within the stock of 5, so both pass the add-time check). -/
def lowStockCartState : AppState :=
  (add_to_cart (add_to_cart lowStockState "P002" 3).1 "P002" 3).1

/-- The spec's failure scenario shape: a cart line requesting a quantity
(99) far exceeding the product's current stock (10). -/
def overdraftState : AppState :=
  { inventory := [⟨"P003", "Sugar (1kg)", "Pantry", 2, 10, 5, "Supplier B"⟩],
    sales_records := [],
    customers := [⟨"C001", "Asha", "99999", "a@example.com", "12 Main St",
      "2024-01-01", 0⟩],
    shopping_lists := [],
    current_cart := [⟨"P003", "Sugar (1kg)", 99, 2, 198⟩] }

/-- A catalog where milk costs 10, before a price change. -/
def cheapMilkState : AppState :=
  { inventory := [⟨"P004", "Milk (1L)", "Dairy", 10, 15, 5, "Supplier D"⟩],
    sales_records := [],
    customers := [⟨"C001", "Asha", "99999", "a@example.com", "12 Main St",
      "2024-01-01", 0⟩],
    shopping_lists := [],
    current_cart := [] }

/-- `cheapMilkState` after `(P004, qty 2)` was added to the cart at the
old price 10 and the catalog price was then raised to 20 (the cart line
keeps its add-time snapshot). -/
def priceDriftState : AppState :=
  { (add_to_cart cheapMilkState "P004" 2).1 with
      inventory := [⟨"P004", "Milk (1L)", "Dairy", 20, 15, 5, "Supplier D"⟩] }

/-- A cart referencing an existing product, but an empty customer table:
the selected customer id resolves to no directory row. -/
def ghostCustomerState : AppState :=
  { inventory := [⟨"P005", "Eggs (12pcs)", "Dairy", 18, 30, 10, "Supplier D"⟩],
    sales_records := [],
    customers := [],
    shopping_lists := [],
    current_cart := [⟨"P005", "Eggs (12pcs)", 2, 18, 36⟩] }

/-- A stored shopping list with one resolvable item (sufficient stock)
and one item whose product name is not in the catalog. -/
def listState : AppState :=
  { inventory := [⟨"P001", "Rice (1kg)", "Grains", 80, 50, 10, "Supplier A"⟩],
    sales_records := [],
    customers := [⟨"C001", "Asha", "99999", "a@example.com", "12 Main St",
      "2024-01-01", 0⟩],
    shopping_lists := [("C001",
      [⟨"Rice (1kg)", 2, ""⟩, ⟨"Dragon Fruit", 1, ""⟩])],
    current_cart := [] }

/-- A one-product catalog used to exercise the three materialization
cases separately. -/
def invC7 : List Product :=
  [⟨"P001", "Rice (1kg)", "Grains", 80, 50, 10, "Supplier A"⟩]

/-- The completely empty application state. -/
def emptyState : AppState :=
  { inventory := [], sales_records := [], customers := [],
    shopping_lists := [], current_cart := [] }

/-- Tables whose last (and only) ids carry a four-digit numeric part. -/
def wideIdState : AppState :=
  { inventory := [⟨"P0010", "Widget", "Pantry", 5, 1, 1, "Supplier Z"⟩],
    sales_records := [],
    customers := [⟨"C0010", "Bea", "99999", "b@example.com", "3 Side St",
      "2024-01-01", 0⟩],
    shopping_lists := [],
    current_cart := [] }

/-- A ledger holding one past sale that was recorded as two line items
(both rows share sale id `S0001`), plus a ready cart. -/
def twoLineLedgerState : AppState :=
  { inventory := [⟨"P001", "Rice (1kg)", "Grains", 80, 50, 10, "Supplier A"⟩],
    sales_records :=
      [⟨"S0001", "2024-04-30", "09:00:00", "C001", "Asha", "P001",
        "Rice (1kg)", 1, 80, 80, "Cash"⟩,
       ⟨"S0001", "2024-04-30", "09:00:00", "C001", "Asha", "P001",
        "Rice (1kg)", 2, 80, 160, "Cash"⟩],
    customers := [⟨"C001", "Asha", "99999", "a@example.com", "12 Main St",
      "2024-01-01", 240⟩],
    shopping_lists := [],
    current_cart := [⟨"P001", "Rice (1kg)", 3, 80, 240⟩] }

lemma map_ite_id (l : List Product) (pid : String) (g : Product → Product)
    (h : ∀ p ∈ l, p.productId ≠ pid) :
    l.map (fun p => if p.productId = pid then g p else p) = l := by
  induction l with
  | nil => rfl
  | cons p rest ih =>
    have hp : p.productId ≠ pid := h p (List.mem_cons_self p rest)
    simp only [List.map_cons, if_neg hp, List.cons.injEq, true_and]
    exact ih (fun q hq => h q (List.mem_cons_of_mem p hq))

/-- When product ids are pairwise distinct, decrementing the first row
matching `pid` is pointwise: every row with that id (there is at most
one) loses `q`, every other row is untouched. -/
lemma decrementStockFirst_eq_map (inv : List Product) (pid : String)
    (q : ℤ) (hnd : inv.Pairwise (fun a b => a.productId ≠ b.productId)) :
    decrementStockFirst inv pid q =
      inv.map (fun p => if p.productId = pid then
        { p with stockQuantity := p.stockQuantity - q } else p) := by
  induction inv with
  | nil => rfl
  | cons p rest ih =>
    rw [List.pairwise_cons] at hnd
    obtain ⟨hp, hrest⟩ := hnd
    by_cases hc : p.productId = pid
    · have hb : (p.productId == pid) = true := beq_iff_eq.mpr hc
      simp only [decrementStockFirst, hb, if_true, List.map_cons, if_pos hc,
        List.cons.injEq, true_and]
      exact (map_ite_id rest pid _
        (fun b hb2 e => (hp b hb2) (hc.trans e.symm))).symm
    · have hb : (p.productId == pid) = false := beq_eq_false_iff_ne.mpr hc
      simp only [decrementStockFirst, hb, Bool.false_eq_true, if_false,
        List.map_cons, if_neg hc, List.cons.injEq, true_and]
      exact ih hrest

lemma findByProductId_isSome_map (inv : List Product) (f : Product → Product)
    (hf : ∀ p, (f p).productId = p.productId) (pid : String) :
    (findByProductId (inv.map f) pid).isSome =
      (findByProductId inv pid).isSome := by
  induction inv with
  | nil => rfl
  | cons p rest ih =>
    cases h : (p.productId == pid) with
    | true =>
      simp [findByProductId, List.find?_cons, hf, h]
    | false =>
      simpa [findByProductId, List.find?_cons, hf, h] using ih

lemma pairwise_ne_map (inv : List Product) (f : Product → Product)
    (hf : ∀ p, (f p).productId = p.productId)
    (hnd : inv.Pairwise (fun a b => a.productId ≠ b.productId)) :
    (inv.map f).Pairwise (fun a b => a.productId ≠ b.productId) := by
  rw [List.pairwise_map]
  exact hnd.imp (fun {a b} h => by rw [hf a, hf b]; exact h)

/-- The full behaviour of the `process_sale` loop when every cart line's
product id occurs in the inventory and inventory ids are distinct: one
sale record is appended per cart line (in order), each product loses the
cart's combined quantity for it, the line totals accumulate, and the loop
completes.  -/
lemma processCartLoop_spec (sid d t cid cname pay : String)
    (cart : List CartItem) :
    ∀ (sales : List SaleRecord) (inv : List Product) (tot : ℚ),
    inv.Pairwise (fun a b => a.productId ≠ b.productId) →
    (∀ it ∈ cart, (findByProductId inv it.product_id).isSome = true) →
    processCartLoop sid d t cid cname pay cart sales inv tot =
      ⟨sales ++ cart.map (saleRecordOf sid d t cid cname pay),
       inv.map (fun p =>
         { p with stockQuantity := p.stockQuantity - cartQty cart p.productId }),
       tot + (cart.map (fun it => it.total)).sum, true⟩ := by
  induction cart with
  | nil =>
    intro sales inv tot hnd hfound
    have hmap : inv.map (fun p =>
        { p with stockQuantity := p.stockQuantity - cartQty [] p.productId })
        = inv := by
      have : ∀ p : Product,
          ({ p with stockQuantity := p.stockQuantity - cartQty [] p.productId })
            = p := by
        intro p
        show ({ p with stockQuantity := p.stockQuantity - 0 }) = p
        rw [sub_zero]
      rw [funext this]
      exact List.map_id' inv
    simp [processCartLoop, hmap]
  | cons it rest ih =>
    intro sales inv tot hnd hfound
    have hit := hfound it (List.mem_cons_self it rest)
    obtain ⟨p, hp⟩ := Option.isSome_iff_exists.mp hit
    have hfp : ∀ q : Product, ((fun p => if p.productId = it.product_id then
        { p with stockQuantity := p.stockQuantity - it.quantity } else p) q).productId
        = q.productId := by
      intro q; by_cases hc : q.productId = it.product_id <;> simp [hc]
    have hstep : processCartLoop sid d t cid cname pay (it :: rest) sales inv tot
        = processCartLoop sid d t cid cname pay rest
            (sales ++ [saleRecordOf sid d t cid cname pay it])
            (decrementStockFirst inv it.product_id it.quantity)
            (tot + it.total) := by
      conv_lhs => rw [processCartLoop]
      rw [hp]
    rw [hstep, decrementStockFirst_eq_map inv it.product_id it.quantity hnd,
      ih _ _ _
        (pairwise_ne_map inv _ hfp hnd)
        (fun it' hit' => by
          rw [findByProductId_isSome_map inv _ hfp]
          exact hfound it' (List.mem_cons_of_mem it hit'))]
    simp only [CartLoopResult.mk.injEq]
    refine ⟨?_, ?_, ?_, trivial⟩
    · rw [List.map_cons, List.append_assoc]
      rfl
    · rw [List.map_map]
      refine congrArg (fun f => inv.map f) (funext fun q => ?_)
      by_cases hc : q.productId = it.product_id
    -- in the matching case both decrements combine
      · have hc2 : it.product_id = q.productId := hc.symm
        simp only [Function.comp_apply, if_pos hc, cartQty, if_pos hc2]
        show ({ q with stockQuantity := q.stockQuantity - it.quantity
                  - cartQty rest q.productId }) =
          ({ q with stockQuantity :=
              q.stockQuantity - (it.quantity + cartQty rest q.productId) })
        rw [sub_sub]
      · have hc2 : it.product_id ≠ q.productId := fun e => hc e.symm
        simp [Function.comp_apply, if_neg hc, cartQty, if_neg hc2, zero_add]
    · rw [List.map_cons, List.sum_cons, add_assoc]

/-- When no row carries the customer id, `process_sale`'s total-purchases
update is a no-op (the source guards it with `if len(cust_idx) > 0`). -/
lemma updateCustomerTotal_not_found (cs : List Customer) (cid : String)
    (amt : ℚ) (h : ∀ c ∈ cs, c.customerId ≠ cid) :
    updateCustomerTotal cs cid amt = cs := by
  induction cs with
  | nil => rfl
  | cons c rest ih =>
    have hc : (c.customerId == cid) = false :=
      beq_eq_false_iff_ne.mpr (h c (List.mem_cons_self c rest))
    simp only [updateCustomerTotal, hc, Bool.false_eq_true, if_false,
      List.cons.injEq, true_and]
    exact ih (fun q hq => h q (List.mem_cons_of_mem c hq))

/-- The full behaviour of `process_sale` on a non-empty cart with a
selected customer, when the inventory ids are pairwise distinct and every
cart line's product id occurs in the inventory: the checkout succeeds
unconditionally (no stock re-validation happens), one record per cart
line is appended to the ledger with the cart-line snapshots, each
product's stock drops by the cart's combined quantity for it, the first
row matching the customer id (if any) is credited with the cart total,
and the cart is cleared. -/
lemma process_sale_spec (s : AppState) (cid cname pay d t : String)
    (hc : s.current_cart ≠ [])
    (hnd : s.inventory.Pairwise (fun a b => a.productId ≠ b.productId))
    (hfound : ∀ it ∈ s.current_cart,
      (findByProductId s.inventory it.product_id).isSome = true) :
    process_sale s (some (cid, cname)) pay d t =
      ({ s with
          sales_records := s.sales_records ++ s.current_cart.map
            (saleRecordOf ("S" ++ padNum 4 (s.sales_records.length + 1))
              d t cid cname pay),
          inventory := s.inventory.map (fun p =>
            { p with stockQuantity :=
                p.stockQuantity - cartQty s.current_cart p.productId }),
          customers := updateCustomerTotal s.customers cid
            ((s.current_cart.map (fun it => it.total)).sum),
          current_cart := [] },
        .success ("S" ++ padNum 4 (s.sales_records.length + 1))
          ((s.current_cart.map (fun it => it.total)).sum)) := by
  unfold process_sale
  rw [if_neg hc]
  dsimp only
  rw [processCartLoop_spec ("S" ++ padNum 4 (s.sales_records.length + 1))
      d t cid cname pay s.current_cart s.sales_records s.inventory 0
      hnd hfound]
  simp only [if_true, zero_add]

/-- C3 (confirmed): on the spec's scenario state — P001 priced 80.00
with stock 50, customer C001 with total purchases 0.00 — checking out
the cart [(P001, qty 3)] succeeds with total 240.00, appends exactly one
ledger row with Product_ID P001, Quantity 3, Unit_Price 80.00 and
Total_Amount 240.00, leaves P001's stock at 47 and C001's total
purchases at 240.00. -/
theorem C3_scenario_checkout :
    (process_sale scenarioCartState (some ("C001", "Asha")) "Cash"
        "2024-05-01" "10:00:00").2 = SaleOutcome.success "S0001" 240 ∧
    (process_sale scenarioCartState (some ("C001", "Asha")) "Cash"
        "2024-05-01" "10:00:00").1.sales_records =
      [⟨"S0001", "2024-05-01", "10:00:00", "C001", "Asha", "P001",
        "Rice (1kg)", 3, 80, 240, "Cash"⟩] ∧
    ((process_sale scenarioCartState (some ("C001", "Asha")) "Cash"
        "2024-05-01" "10:00:00").1.inventory.map
          (fun p => p.stockQuantity)) = [47] ∧
    ((process_sale scenarioCartState (some ("C001", "Asha")) "Cash"
        "2024-05-01" "10:00:00").1.customers.map
          (fun c => c.totalPurchases)) = [240] := by
  with_unfolding_all decide

/-- C1 (counterexample): product P002 has stock 5; two add-to-cart
dialogs of quantity 3 each both pass the add-time stock check, and the
checkout then commits both lines, driving the stock to -1 — the claimed
all-or-nothing guard does not exist. -/
theorem C1_counterexample :
    (add_to_cart lowStockState "P002" 3).2 = AddOutcome.added ∧
    (add_to_cart (add_to_cart lowStockState "P002" 3).1 "P002" 3).2 =
      AddOutcome.added ∧
    (process_sale lowStockCartState (some ("C001", "Asha")) "Cash"
        "2024-05-01" "10:00:00").2 = SaleOutcome.success "S0001" 150 ∧
    ((process_sale lowStockCartState (some ("C001", "Asha")) "Cash"
        "2024-05-01" "10:00:00").1.inventory.map
          (fun p => p.stockQuantity)) = [-1] := by
  with_unfolding_all decide

/-- C1 (amended): checkout never re-checks stock, so non-negativity only
holds when the cart's combined quantity per product is within current
stock; under that bound (with distinct inventory ids and every cart line
resolvable) every product's stock stays non-negative after checkout. -/
theorem C1_amended (s : AppState) (cid cname pay d t : String)
    (hc : s.current_cart ≠ [])
    (hnd : s.inventory.Pairwise (fun a b => a.productId ≠ b.productId))
    (hfound : ∀ it ∈ s.current_cart,
      (findByProductId s.inventory it.product_id).isSome = true)
    (hstock : ∀ p ∈ s.inventory,
      cartQty s.current_cart p.productId ≤ p.stockQuantity) :
    ∀ p ∈ (process_sale s (some (cid, cname)) pay d t).1.inventory,
      0 ≤ p.stockQuantity := by
  intro p hp
  rw [process_sale_spec s cid cname pay d t hc hnd hfound] at hp
  simp only [List.mem_map] at hp
  obtain ⟨q, hq, rfl⟩ := hp
  simpa using sub_nonneg.mpr (hstock q hq)

/-- C1 (witness): instantiating the amended non-negativity theorem on the
scenario checkout, for the post-checkout row of P001 (stock 47). -/
theorem C1_amended_witness :
    (0 : ℤ) ≤ (Product.mk "P001" "Rice (1kg)" "Grains" 80 47 10
      "Supplier A").stockQuantity :=
  C1_amended scenarioCartState "C001" "Asha" "Cash" "2024-05-01" "10:00:00"
    (by with_unfolding_all decide) (by with_unfolding_all decide)
    (by with_unfolding_all decide) (by with_unfolding_all decide)
    ⟨"P001", "Rice (1kg)", "Grains", 80, 47, 10, "Supplier A"⟩
    (by with_unfolding_all decide)

/-- C2 (counterexample): the spec's failure scenario shape — a cart line
requesting 99 of a product with stock 10 — does not fail at all: the
checkout succeeds, the ledger gains the row, the stock drops to -89 and
the customer is credited, so no InsufficientStockError re-validation
exists and all three stores are mutated. -/
theorem C2_counterexample :
    (process_sale overdraftState (some ("C001", "Asha")) "Cash"
        "2024-05-01" "10:00:00").2 = SaleOutcome.success "S0001" 198 ∧
    ((process_sale overdraftState (some ("C001", "Asha")) "Cash"
        "2024-05-01" "10:00:00").1.inventory.map
          (fun p => p.stockQuantity)) = [-89] ∧
    (process_sale overdraftState (some ("C001", "Asha")) "Cash"
        "2024-05-01" "10:00:00").1.sales_records.length = 1 ∧
    ((process_sale overdraftState (some ("C001", "Asha")) "Cash"
        "2024-05-01" "10:00:00").1.customers.map
          (fun c => c.totalPurchases)) = [198] := by
  with_unfolding_all decide

/-- C2 (amended): checkout performs no re-validation against current
stock: whenever the cart is non-empty, a customer is selected and every
cart line's product id occurs in the (duplicate-free) catalog, all lines
are committed regardless of stock levels — records appended, stock
decremented by the cart quantities, customer credited, cart cleared. -/
theorem C2_amended (s : AppState) (cid cname pay d t : String)
    (hc : s.current_cart ≠ [])
    (hnd : s.inventory.Pairwise (fun a b => a.productId ≠ b.productId))
    (hfound : ∀ it ∈ s.current_cart,
      (findByProductId s.inventory it.product_id).isSome = true) :
    process_sale s (some (cid, cname)) pay d t =
      ({ s with
          sales_records := s.sales_records ++ s.current_cart.map
            (saleRecordOf ("S" ++ padNum 4 (s.sales_records.length + 1))
              d t cid cname pay),
          inventory := s.inventory.map (fun p =>
            { p with stockQuantity :=
                p.stockQuantity - cartQty s.current_cart p.productId }),
          customers := updateCustomerTotal s.customers cid
            ((s.current_cart.map (fun it => it.total)).sum),
          current_cart := [] },
        SaleOutcome.success ("S" ++ padNum 4 (s.sales_records.length + 1))
          ((s.current_cart.map (fun it => it.total)).sum)) :=
  process_sale_spec s cid cname pay d t hc hnd hfound

/-- C2 (witness): the amended theorem applied to the overdraft scenario,
whose only line exceeds the available stock. -/
theorem C2_amended_witness :
    process_sale overdraftState (some ("C001", "Asha")) "Cash"
        "2024-05-01" "10:00:00" =
      ({ overdraftState with
          sales_records := overdraftState.sales_records ++
            overdraftState.current_cart.map
              (saleRecordOf
                ("S" ++ padNum 4 (overdraftState.sales_records.length + 1))
                "2024-05-01" "10:00:00" "C001" "Asha" "Cash"),
          inventory := overdraftState.inventory.map (fun p =>
            { p with stockQuantity := p.stockQuantity -
                cartQty overdraftState.current_cart p.productId }),
          customers := updateCustomerTotal overdraftState.customers "C001"
            ((overdraftState.current_cart.map (fun it => it.total)).sum),
          current_cart := [] },
        SaleOutcome.success
          ("S" ++ padNum 4 (overdraftState.sales_records.length + 1))
          ((overdraftState.current_cart.map (fun it => it.total)).sum)) :=
  C2_amended overdraftState "C001" "Asha" "Cash" "2024-05-01" "10:00:00"
    (by with_unfolding_all decide) (by with_unfolding_all decide)
    (by with_unfolding_all decide)

/-- C4 (counterexample): after one earlier sale recorded as two line
items (ledger rows S0001, S0001 — one distinct sale id), the next
checkout is assigned S0003, not the S0002 that the distinct-count rule of
the claim prescribes: the id counts ledger rows, so it does depend on how
many line items earlier sales contained. -/
theorem C4_counterexample :
    (process_sale twoLineLedgerState (some ("C001", "Asha")) "Cash"
        "2024-05-01" "10:00:00").2 = SaleOutcome.success "S0003" 240 ∧
    distinctSaleIds twoLineLedgerState.sales_records = 1 ∧
    "S" ++ padNum 4 (distinctSaleIds twoLineLedgerState.sales_records + 1)
      = "S0002" ∧
    ("S0003" : String) ≠ "S0002" := by
  with_unfolding_all decide

/-- C4 (amended): the sale id of a checkout is S followed by the number
of ledger ROWS (line items) plus one, zero-padded to width 4 — S0001 on
an empty ledger — and it is shared by every line item the checkout
appends. -/
theorem C4_amended (s : AppState) (cid cname pay d t : String)
    (hc : s.current_cart ≠ [])
    (hnd : s.inventory.Pairwise (fun a b => a.productId ≠ b.productId))
    (hfound : ∀ it ∈ s.current_cart,
      (findByProductId s.inventory it.product_id).isSome = true) :
    (process_sale s (some (cid, cname)) pay d t).2 =
      SaleOutcome.success ("S" ++ padNum 4 (s.sales_records.length + 1))
        ((s.current_cart.map (fun it => it.total)).sum) ∧
    ∀ rec ∈ (process_sale s (some (cid, cname)) pay d t).1.sales_records,
      rec ∈ s.sales_records ∨
        rec.saleId = "S" ++ padNum 4 (s.sales_records.length + 1) := by
  rw [process_sale_spec s cid cname pay d t hc hnd hfound]
  refine ⟨rfl, ?_⟩
  intro rec hrec
  simp only [List.mem_append, List.mem_map] at hrec
  rcases hrec with h | ⟨it, hit, rfl⟩
  · exact Or.inl h
  · exact Or.inr rfl

/-- C4 (witness): on the scenario state's empty ledger the first sale id
is S followed by the zero-padded row count plus one, i.e. S0001. -/
theorem C4_amended_witness :
    (process_sale scenarioCartState (some ("C001", "Asha")) "Cash"
        "2024-05-01" "10:00:00").2 =
      SaleOutcome.success
        ("S" ++ padNum 4 (scenarioCartState.sales_records.length + 1))
        ((scenarioCartState.current_cart.map (fun it => it.total)).sum) :=
  (C4_amended scenarioCartState "C001" "Asha" "Cash" "2024-05-01"
    "10:00:00" (by with_unfolding_all decide) (by with_unfolding_all decide)
    (by with_unfolding_all decide)).1

/-- C5 (counterexample): a cart line for milk captured at the old price
10; the catalog price is now 20.  The appended ledger row carries unit
price 10 and total 20 — the cart-add-time snapshot — not the catalog
price 20 at the moment of checkout (which would give total 40). -/
theorem C5_counterexample :
    ((findByProductId priceDriftState.inventory "P004").map
      (fun p => p.unitPrice)) = some 20 ∧
    ((process_sale priceDriftState (some ("C001", "Asha")) "Cash"
        "2024-05-01" "10:00:00").1.sales_records.map
          (fun rec => rec.unitPrice)) = [10] ∧
    ((process_sale priceDriftState (some ("C001", "Asha")) "Cash"
        "2024-05-01" "10:00:00").1.sales_records.map
          (fun rec => rec.totalAmount)) = [20] ∧
    (10 : ℚ) ≠ 20 ∧ (20 : ℚ) ≠ 40 := by
  with_unfolding_all decide

/-- C5 (amended): every appended SaleLineItem copies the product name,
unit price and line total stored in the cart line — the snapshot taken
when the line was added to the cart — not the catalog values at the
moment of checkout. -/
theorem C5_amended (s : AppState) (cid cname pay d t : String)
    (hc : s.current_cart ≠ [])
    (hnd : s.inventory.Pairwise (fun a b => a.productId ≠ b.productId))
    (hfound : ∀ it ∈ s.current_cart,
      (findByProductId s.inventory it.product_id).isSome = true) :
    (process_sale s (some (cid, cname)) pay d t).1.sales_records =
      s.sales_records ++ s.current_cart.map (fun it =>
        { saleId := "S" ++ padNum 4 (s.sales_records.length + 1),
          date := d, time := t, customerId := cid, customerName := cname,
          productId := it.product_id, productName := it.product_name,
          quantity := it.quantity, unitPrice := it.unit_price,
          totalAmount := it.total, paymentMethod := pay }) := by
  rw [process_sale_spec s cid cname pay d t hc hnd hfound]
  rfl

/-- C5 (witness): the amended snapshot equation on the scenario
checkout. -/
theorem C5_amended_witness :
    (process_sale scenarioCartState (some ("C001", "Asha")) "Cash"
        "2024-05-01" "10:00:00").1.sales_records =
      scenarioCartState.sales_records ++ scenarioCartState.current_cart.map
        (fun it =>
          { saleId := "S" ++
              padNum 4 (scenarioCartState.sales_records.length + 1),
            date := "2024-05-01", time := "10:00:00", customerId := "C001",
            customerName := "Asha", productId := it.product_id,
            productName := it.product_name, quantity := it.quantity,
            unitPrice := it.unit_price, totalAmount := it.total,
            paymentMethod := "Cash" }) :=
  C5_amended scenarioCartState "C001" "Asha" "Cash" "2024-05-01" "10:00:00"
    (by with_unfolding_all decide) (by with_unfolding_all decide)
    (by with_unfolding_all decide)

/-- C6 (counterexample): with a non-empty cart but an empty customer
table, checking out under the unresolvable id C999 does not fail with any
not-found error: the sale succeeds, a line item is appended and the stock
is decremented; only the total-purchases credit silently finds no row. -/
theorem C6_counterexample :
    (process_sale ghostCustomerState (some ("C999", "Ghost")) "Cash"
        "2024-05-01" "10:00:00").2 = SaleOutcome.success "S0001" 36 ∧
    (process_sale ghostCustomerState (some ("C999", "Ghost")) "Cash"
        "2024-05-01" "10:00:00").1.sales_records.length = 1 ∧
    ((process_sale ghostCustomerState (some ("C999", "Ghost")) "Cash"
        "2024-05-01" "10:00:00").1.inventory.map
          (fun p => p.stockQuantity)) = [28] := by
  with_unfolding_all decide

/-- C6 (amended): when the selected customer id matches no directory row,
checkout still commits fully — ledger rows appended, stock decremented,
cart cleared — and the customer table is left exactly as it was (the
credit step is a silent no-op; no error is raised). -/
theorem C6_amended (s : AppState) (cid cname pay d t : String)
    (hc : s.current_cart ≠ [])
    (hnd : s.inventory.Pairwise (fun a b => a.productId ≠ b.productId))
    (hfound : ∀ it ∈ s.current_cart,
      (findByProductId s.inventory it.product_id).isSome = true)
    (hnc : ∀ c ∈ s.customers, c.customerId ≠ cid) :
    process_sale s (some (cid, cname)) pay d t =
      ({ s with
          sales_records := s.sales_records ++ s.current_cart.map
            (saleRecordOf ("S" ++ padNum 4 (s.sales_records.length + 1))
              d t cid cname pay),
          inventory := s.inventory.map (fun p =>
            { p with stockQuantity :=
                p.stockQuantity - cartQty s.current_cart p.productId }),
          current_cart := [] },
        SaleOutcome.success ("S" ++ padNum 4 (s.sales_records.length + 1))
          ((s.current_cart.map (fun it => it.total)).sum)) := by
  rw [process_sale_spec s cid cname pay d t hc hnd hfound,
    updateCustomerTotal_not_found s.customers cid _ hnc]

/-- C6 (witness): the amended theorem applied to the ghost-customer
scenario. -/
theorem C6_amended_witness :
    process_sale ghostCustomerState (some ("C999", "Ghost")) "Cash"
        "2024-05-01" "10:00:00" =
      ({ ghostCustomerState with
          sales_records := ghostCustomerState.sales_records ++
            ghostCustomerState.current_cart.map
              (saleRecordOf
                ("S" ++ padNum 4
                  (ghostCustomerState.sales_records.length + 1))
                "2024-05-01" "10:00:00" "C999" "Ghost" "Cash"),
          inventory := ghostCustomerState.inventory.map (fun p =>
            { p with stockQuantity := p.stockQuantity -
                cartQty ghostCustomerState.current_cart p.productId }),
          current_cart := [] },
        SaleOutcome.success
          ("S" ++ padNum 4 (ghostCustomerState.sales_records.length + 1))
          ((ghostCustomerState.current_cart.map
            (fun it => it.total)).sum)) :=
  C6_amended ghostCustomerState "C999" "Ghost" "Cash" "2024-05-01"
    "10:00:00" (by with_unfolding_all decide) (by with_unfolding_all decide)
    (by with_unfolding_all decide) (by with_unfolding_all decide)

/-- C7 (counterexample): materializing a list holding one resolvable item
(Rice, stock sufficient) and one unresolvable item (Dragon Fruit) adds
the resolvable line to the cart but records the unresolvable item
nowhere: the skipped/warning set is empty — no ProductNotFound entry
exists anywhere in the source. -/
theorem C7_counterexample :
    (add_shopping_list_to_cart listState (some ("C001", "Asha"))).1.current_cart
      = [⟨"P001", "Rice (1kg)", 2, 80, 160⟩] ∧
    (add_shopping_list_to_cart listState (some ("C001", "Asha"))).2.1 = [] ∧
    (add_shopping_list_to_cart listState (some ("C001", "Asha"))).2.2
      = ListToCartOutcome.itemsAdded 1 := by
  with_unfolding_all decide

/-- C7 (amended): list materialization never fails as a whole and treats
each item independently — an item resolvable with sufficient stock yields
a cart line at the current catalog price, an item resolvable with
insufficient stock yields only a stock warning, and an item whose name
does not resolve is dropped silently, contributing neither a cart line
nor any skipped record. -/
theorem C7_amended (inv : List Product) (it : ShoppingListItem)
    (rest : List ShoppingListItem) :
    (findByProductName inv it.product = none →
      materializeLoop inv (it :: rest) = materializeLoop inv rest) ∧
    (∀ p, findByProductName inv it.product = some p →
      it.quantity ≤ p.stockQuantity →
      materializeLoop inv (it :: rest) =
        ({ product_id := p.productId, product_name := p.productName,
           quantity := it.quantity, unit_price := p.unitPrice,
           total := (it.quantity : ℚ) * p.unitPrice } ::
            (materializeLoop inv rest).1,
         (materializeLoop inv rest).2)) ∧
    (∀ p, findByProductName inv it.product = some p →
      p.stockQuantity < it.quantity →
      materializeLoop inv (it :: rest) =
        ((materializeLoop inv rest).1,
         { productName := p.productName, available := p.stockQuantity,
           requested := it.quantity } :: (materializeLoop inv rest).2)) := by
  refine ⟨?_, ?_, ?_⟩
  · intro h
    conv_lhs => rw [materializeLoop]
    rw [h]
  · intro p hp hq
    conv_lhs => rw [materializeLoop]
    rw [hp]
    dsimp only
    rw [if_pos hq]
  · intro p hp hq
    conv_lhs => rw [materializeLoop]
    rw [hp]
    dsimp only
    rw [if_neg (not_le.mpr hq)]

/-- C7 (witness): the three materialization cases on the one-product
catalog: an unknown name contributes nothing, a within-stock item becomes
a cart line at catalog price, an over-stock item becomes a warning. -/
theorem C7_amended_witness :
    materializeLoop invC7 [⟨"Dragon Fruit", 1, ""⟩] =
      materializeLoop invC7 [] ∧
    materializeLoop invC7 [⟨"Rice (1kg)", 2, ""⟩] =
      ([⟨"P001", "Rice (1kg)", 2, 80, 160⟩], []) ∧
    materializeLoop invC7 [⟨"Rice (1kg)", 60, ""⟩] =
      ([], [⟨"Rice (1kg)", 50, 60⟩]) := by
  refine ⟨?_, ?_, ?_⟩
  · exact (C7_amended invC7 ⟨"Dragon Fruit", 1, ""⟩ []).1
      (by with_unfolding_all decide)
  · exact ((C7_amended invC7 ⟨"Rice (1kg)", 2, ""⟩ []).2.1
      ⟨"P001", "Rice (1kg)", "Grains", 80, 50, 10, "Supplier A"⟩
      (by with_unfolding_all decide) (by with_unfolding_all decide)).trans
      (by with_unfolding_all decide)
  · exact ((C7_amended invC7 ⟨"Rice (1kg)", 60, ""⟩ []).2.2
      ⟨"P001", "Rice (1kg)", "Grains", 80, 50, 10, "Supplier A"⟩
      (by with_unfolding_all decide) (by with_unfolding_all decide)).trans
      (by with_unfolding_all decide)

/-- C8 (counterexample): a product with non-empty name, category and
supplier but price 0 is REJECTED (`all([...])` treats the float 0.0 as
missing), while a negative price such as -5 is accepted — the opposite of
the claimed "price must be a non-negative number, 0 accepted" rule. -/
theorem C8_counterexample :
    save_product emptyState "Apple" "Fruits" "FreshCo" (some 0) (some 5)
        (some 1) = (emptyState, ProductSaveOutcome.allFieldsRequired) ∧
    (save_product emptyState "Apple" "Fruits" "FreshCo" (some (-5)) (some 5)
        (some 1)).2 = ProductSaveOutcome.saved "P001" := by
  with_unfolding_all decide

/-- C8 (amended): with parseable numeric inputs and a well-formed last
id, save_product succeeds exactly when name, category and supplier are
non-empty and the price is non-zero — so price 0 is rejected by the
truthiness check, and any non-zero price (negative ones included) is
accepted. -/
theorem C8_amended (s : AppState) (name category supplier : String)
    (p : ℚ) (st ms : ℤ) (nid : String)
    (hid : nextProductId s.inventory = some nid) :
    (save_product s name category supplier (some p) (some st)
        (some ms)).2 = ProductSaveOutcome.saved nid ↔
      (name ≠ "" ∧ category ≠ "" ∧ p ≠ 0 ∧ supplier ≠ "") := by
  unfold save_product
  rw [hid]
  dsimp only
  by_cases h : name ≠ "" ∧ category ≠ "" ∧ p ≠ 0 ∧ supplier ≠ ""
  · rw [if_pos h]
    simp [h]
  · rw [if_neg h]
    simp [h]

/-- C8 (witness): the amended acceptance rule applied at a negative
price, which the dialog accepts and stores. -/
theorem C8_amended_witness :
    (save_product emptyState "Mystery Box" "Snacks" "FreshCo" (some (-7))
        (some 4) (some 2)).2 = ProductSaveOutcome.saved "P001" :=
  (C8_amended emptyState "Mystery Box" "Snacks" "FreshCo" (-7) 4 2 "P001"
    (by with_unfolding_all decide)).mpr (by with_unfolding_all decide)

/-- C9 (counterexample): when the last ids are P0010/C0010 (four-digit
numeric part), the next generated ids are P011 and C011 — formatted with
the fixed `03d` width, not zero-padded to the same width as the last id,
which would give P0011/C0011. -/
theorem C9_counterexample :
    (save_product wideIdState "Apple" "Fruits" "FreshCo" (some 2) (some 5)
        (some 1)).2 = ProductSaveOutcome.saved "P011" ∧
    (save_customer wideIdState "Cara" "88888" "c@example.com" "5 High St"
        "2024-05-01").2 = CustomerSaveOutcome.saved "C011" ∧
    ("P011" : String) ≠ "P0011" ∧ ("C011" : String) ≠ "C0011" := by
  with_unfolding_all decide

/-- C9 (amended): id generation parses the integer after the prefix of
the LAST record's id, adds 1, and formats it zero-padded to the fixed
width 3 (prefix P for products, C for customers); empty tables start at
P001 and C001, and the numeric part strictly increases by 1. -/
theorem C9_amended (inv : List Product) (cs : List Customer)
    (p : Product) (c : Customer) (n m : ℕ)
    (hp : inv.getLast? = some p)
    (hn : parseNatDigits (p.productId.drop 1) = some n)
    (hc : cs.getLast? = some c)
    (hm : parseNatDigits (c.customerId.drop 1) = some m) :
    nextProductId inv = some ("P" ++ padNum 3 (n + 1)) ∧
    nextCustomerId cs = some ("C" ++ padNum 3 (m + 1)) ∧
    nextProductId [] = some "P001" ∧
    nextCustomerId [] = some "C001" := by
  refine ⟨?_, ?_, by with_unfolding_all decide, by with_unfolding_all decide⟩
  · unfold nextProductId
    rw [hp]
    dsimp only
    rw [hn]
    rfl
  · unfold nextCustomerId
    rw [hc]
    dsimp only
    rw [hm]
    rfl

/-- C9 (witness): the amended formula on the four-digit-wide tables:
parse 10, add 1, pad to width 3. -/
theorem C9_amended_witness :
    nextProductId wideIdState.inventory = some ("P" ++ padNum 3 (10 + 1)) ∧
    nextCustomerId wideIdState.customers = some ("C" ++ padNum 3 (10 + 1)) ∧
    nextProductId [] = some "P001" ∧
    nextCustomerId [] = some "C001" :=
  C9_amended wideIdState.inventory wideIdState.customers
    ⟨"P0010", "Widget", "Pantry", 5, 1, 1, "Supplier Z"⟩
    ⟨"C0010", "Bea", "99999", "b@example.com", "3 Side St", "2024-01-01", 0⟩
    10 10 (by with_unfolding_all decide) (by with_unfolding_all decide)
    (by with_unfolding_all decide) (by with_unfolding_all decide)

/-- C10 (confirmed): any checkout that reports success leaves the cart
empty (process_sale ends with clear_cart), and running process_sale again
on the resulting state immediately stops with the empty-cart warning and
changes nothing — the same cart lines can never be committed twice. -/
theorem C10_cart_cleared (s : AppState) (info : Option (String × String))
    (pay d t sid : String) (tot : ℚ) (s' : AppState)
    (h : process_sale s info pay d t = (s', SaleOutcome.success sid tot)) :
    s'.current_cart = [] ∧
    process_sale s' info pay d t = (s', SaleOutcome.emptyCartWarning) := by
  have h1 : s'.current_cart = [] := by
    unfold process_sale at h
    by_cases hc : s.current_cart = []
    · rw [if_pos hc] at h
      simp [Prod.ext_iff] at h
    · rw [if_neg hc] at h
      rcases info with _ | ⟨cid, cname⟩
      · simp [Prod.ext_iff] at h
      · dsimp only at h
        by_cases hok : (processCartLoop
            ("S" ++ padNum 4 (s.sales_records.length + 1)) d t cid cname
            pay s.current_cart s.sales_records s.inventory 0).ok = true
        · rw [if_pos hok, Prod.mk.injEq] at h
          rw [← h.1]
        · rw [if_neg hok] at h
          simp [Prod.ext_iff] at h
  refine ⟨h1, ?_⟩
  unfold process_sale
  rw [if_pos h1]

/-- C10 (witness): the scenario checkout succeeds, leaves the cart empty,
and a second process_sale call on the result only warns. -/
theorem C10_cart_cleared_witness :
    (process_sale scenarioCartState (some ("C001", "Asha")) "Cash"
        "2024-05-01" "10:00:00").1.current_cart = [] ∧
    process_sale (process_sale scenarioCartState (some ("C001", "Asha"))
        "Cash" "2024-05-01" "10:00:00").1 (some ("C001", "Asha")) "Cash"
        "2024-05-01" "10:00:00" =
      ((process_sale scenarioCartState (some ("C001", "Asha")) "Cash"
          "2024-05-01" "10:00:00").1, SaleOutcome.emptyCartWarning) :=
  C10_cart_cleared scenarioCartState (some ("C001", "Asha")) "Cash"
    "2024-05-01" "10:00:00" "S0001" 240
    (process_sale scenarioCartState (some ("C001", "Asha")) "Cash"
      "2024-05-01" "10:00:00").1
    (by with_unfolding_all decide)

end GroceryShop
